import Mathlib

/-!
Shallow embedding of `ExamForm.clean` from `src/exam/forms.py` (a Django
ModelForm). The validation logic is a sequence of checks, each of which
raises `forms.ValidationError(message)` and thereby aborts the remaining
checks; the model returns `Except CleanError CleanedData`, with the raised
error on the left. Python `datetime` values are modelled as wall-clock
minutes together with an optional UTC offset (`none` = naive); comparing a
naive with an aware datetime raises `TypeError` in Python, modelled as the
`CleanError.typeError` outcome. The calendar is simplified to uniform years
of 525600 minutes, which preserves the monotonicity facts the year-bound
checks depend on.
-/

/-- A Python `datetime`: wall-clock time in minutes since a fixed epoch,
with `offset = some o` meaning timezone-aware with UTC offset `o` minutes,
and `offset = none` meaning naive. -/
structure PyDateTime where
  wall : Int
  offset : Option Int
deriving DecidableEq, Repr

/-- Minutes in one (uniform, simplified) calendar year. -/
def minutesPerYear : Int := 525600

/-- `timezone.is_aware`. -/
def PyDateTime.isAware (d : PyDateTime) : Bool := d.offset.isSome

/-- The absolute instant a datetime denotes, as UTC minutes (for a naive
value this treats the wall clock as UTC, but `instant` is only ever used on
aware values, mirroring Python's aware-datetime comparison). -/
def PyDateTime.instant (d : PyDateTime) : Int := d.wall - d.offset.getD 0

/-- The `.year` attribute, under the uniform-year calendar. -/
def PyDateTime.year (d : PyDateTime) : Int := d.wall / minutesPerYear

/-- `timezone.localtime(d)` for an aware `d`: same instant, re-expressed in
the configured local zone whose UTC offset is `off` minutes. -/
def localtime (off : Int) (d : PyDateTime) : PyDateTime :=
  { wall := d.instant + off, offset := some off }

/-- Python `a < b` on datetimes: aware pairs compare by instant, naive pairs
by wall clock, and a mixed pair raises `TypeError` (`none`). -/
def dtLt (a b : PyDateTime) : Option Bool :=
  match a.offset, b.offset with
  | some _, some _ => some (decide (a.instant < b.instant))
  | none, none => some (decide (a.wall < b.wall))
  | _, _ => none

/-- Python `a >= b` on datetimes (total order, so `>=` is the negation of
`<`; a mixed pair again raises `TypeError`). -/
def dtGe (a b : PyDateTime) : Option Bool :=
  (dtLt a b).map (fun x => !x)

/-- Python truthiness of a datetime object: `datetime` defines no
`__bool__`, so every datetime is truthy. -/
def pyTruthy (_ : PyDateTime) : Bool := true

/-- The normalization applied at the top of `clean` to each of
`start_date_time` and `end_date_time`:
`if v and timezone.is_aware(v): v = timezone.localtime(v)`. -/
def normDT (off : Int) (d : PyDateTime) : PyDateTime :=
  if d.isAware then localtime off d else d

/-- Lifts `normDT` to an optional field value (`None` stays `None`, since
`if v and ...` is skipped for a missing value). -/
def normalizeDT (off : Int) (d : Option PyDateTime) : Option PyDateTime :=
  match d with
  | none => none
  | some dt => some (normDT off dt)

/-- The spec's error taxonomy; each `raise forms.ValidationError` site in
the source is tagged with the kind the spec assigns to it. -/
inductive ErrorKind where
  | InvalidType
  | NoParticipants
  | InvalidRange
  | OutOfBounds
  | InPast
  | Required
deriving DecidableEq, Repr

/-- A raised `forms.ValidationError`: spec kind plus the exact message. -/
structure ValidationError where
  kind : ErrorKind
  message : String
deriving DecidableEq, Repr

/-- Outcome of a raise inside `clean`: either a `forms.ValidationError`
(caught by Django and turned into form errors) or a Python `TypeError`
from comparing naive and aware datetimes (an uncaught crash). -/
inductive CleanError where
  | validation (e : ValidationError)
  | typeError
deriving DecidableEq, Repr

/-- Shorthand for a raised `forms.ValidationError`. -/
def vErr (k : ErrorKind) (m : String) : CleanError := .validation ⟨k, m⟩

def msgInvalidTypeStart : String := "Start date and time is not a valid date/time."
def msgInvalidTypeEnd : String := "End date and time is not a valid date/time."
def msgNoStudentsAll : String :=
  "Cannot create exam for \"All Students\" because there are no students registered in the system. Please register students first or change access type to \"Specific Students\"."
def msgNoParticipantsSpecific : String :=
  "This exam has no participants. Please select at least one student or change access type to \"All Students\"."
def msgNoStudentsAll2 : String :=
  "Cannot create exam because there are no students in the system. Please register students first."
def msgInvalidRange : String := "Start date and time must be before end date and time."
def msgStartBetween (lo hi : Int) : String :=
  "Start date must be between " ++ toString lo ++ " and " ++ toString hi ++ "."
def msgEndBetween (lo hi : Int) : String :=
  "End date must be between " ++ toString lo ++ " and " ++ toString hi ++ "."
def msgInPast : String := "Start date and time must not be in the past."
def msgRequired : String := "Both start and end date/time are required."

/-- The `cleaned_data` mapping produced by `super().clean()`, restricted to
the form's declared fields; a `none` field value models a key that is
missing (field-level validation failed or the value was absent). -/
structure CleanedData where
  title : Option String
  description : Option String
  start_date_time : Option PyDateTime
  end_date_time : Option PyDateTime
  duration_minutes : Option Int
  max_attempts : Option Int
  passing_percentage : Option Int
  access_type : Option String
  allowed_students : Option (List String)
deriving DecidableEq, Repr

/-- The emptiness test `not allowed_students or len(allowed_students) == 0`:
`None` and the empty queryset are both falsy. -/
def allowedIsEmpty : Option (List String) → Bool
  | none => true
  | some l => l.isEmpty

/-- `ExamForm.clean` (src/exam/forms.py, lines 53-120). `nowWall` is the
wall-clock of `timezone.localtime(timezone.now())` in the local zone whose
UTC offset is `localOffset`; `studentCount` is the value returned by
`User.objects.filter(user_type='student').count()` (queried twice in the
source; modelled as one ambient value, i.e. a count that is stable within
the call). Each `raise` is an early `.error` return; on success the
function returns `cleaned_data` itself. -/
def clean (cd : CleanedData) (nowWall localOffset : Int) (studentCount : Nat) :
    Except CleanError CleanedData :=
  let now : PyDateTime := ⟨nowWall, some localOffset⟩
  let maxYear : Int := now.year + 10
  match normalizeDT localOffset cd.start_date_time with
  | none => .error (vErr .InvalidType msgInvalidTypeStart)
  | some sdt =>
    match normalizeDT localOffset cd.end_date_time with
    | none => .error (vErr .InvalidType msgInvalidTypeEnd)
    | some edt =>
      if cd.access_type == some "all_students" && studentCount == 0 then
        .error (vErr .NoParticipants msgNoStudentsAll)
      else if cd.access_type == some "specific_students" && allowedIsEmpty cd.allowed_students then
        .error (vErr .NoParticipants msgNoParticipantsSpecific)
      else if !(cd.access_type == some "specific_students") &&
          cd.access_type == some "all_students" && studentCount == 0 then
        .error (vErr .NoParticipants msgNoStudentsAll2)
      else if pyTruthy sdt && pyTruthy edt then
        match dtGe sdt edt with
        | none => .error .typeError
        | some true => .error (vErr .InvalidRange msgInvalidRange)
        | some false =>
          if sdt.year < now.year || sdt.year > maxYear then
            .error (vErr .OutOfBounds (msgStartBetween now.year maxYear))
          else if edt.year < now.year || edt.year > maxYear then
            .error (vErr .OutOfBounds (msgEndBetween now.year maxYear))
          else
            match dtLt sdt now with
            | none => .error .typeError
            | some true => .error (vErr .InPast msgInPast)
            | some false => .ok cd
      else .error (vErr .Required msgRequired)

/-- The form's error list produced by one call of `clean`: a raised
`ValidationError` yields a singleton list, success yields the empty list,
and a `TypeError` crash produces no form errors at all. -/
def errorsOf : Except CleanError CleanedData → List ValidationError
  | .ok _ => []
  | .error (.validation e) => [e]
  | .error .typeError => []

theorem errorsOf_subsingleton (r : Except CleanError CleanedData) :
    ∀ e₁ e₂, e₁ ∈ errorsOf r → e₂ ∈ errorsOf r → e₁ = e₂ := by
  intro e₁ e₂ h₁ h₂
  cases r with
  | ok _ => simp [errorsOf] at h₁
  | error err =>
    cases err with
    | typeError => simp [errorsOf] at h₁
    | validation e =>
      simp [errorsOf] at h₁ h₂
      rw [h₁, h₂]

theorem localtime_instant (off : Int) (d : PyDateTime) :
    (localtime off d).instant = d.instant := by
  simp [localtime, PyDateTime.instant]

theorem dtLt_normDT (off : Int) (a b : PyDateTime) :
    dtLt (normDT off a) (normDT off b) = dtLt a b := by
  unfold normDT dtLt localtime PyDateTime.isAware PyDateTime.instant
  cases ha : a.offset <;> cases hb : b.offset <;> simp [ha, hb]

theorem dtGe_normDT (off : Int) (a b : PyDateTime) :
    dtGe (normDT off a) (normDT off b) = dtGe a b := by
  unfold dtGe
  rw [dtLt_normDT]

/-- C2 (counterexample). The claim says an already-aware instant is passed
through unchanged and a naive one is localized; the source does the
opposite: with local offset 0, the aware value (wall 100, offset +60) is
rewritten to (wall 40, offset 0), while the naive value (wall 100) is left
untouched and stays naive. -/
theorem normalize_aware_changed_naive_kept :
    normalizeDT 0 (some ⟨100, some 60⟩) = some ⟨40, some 0⟩ ∧
    normalizeDT 0 (some ⟨100, some 60⟩) ≠ some ⟨100, some 60⟩ ∧
    normalizeDT 0 (some ⟨100, none⟩) = some ⟨100, none⟩ := by
  refine ⟨by decide, by decide, by decide⟩

/-- C2 (amended). During normalization, an instant that is already
timezone-aware is converted to the caller's configured local zone
(preserving the absolute instant it denotes), and a naive instant is
passed through unchanged, before any rule checks run. -/
theorem normalize_localizes_aware (off : Int) (d : PyDateTime) :
    (d.isAware = true →
      normalizeDT off (some d) = some (localtime off d) ∧
      (localtime off d).offset = some off ∧
      (localtime off d).instant = d.instant) ∧
    (d.isAware = false → normalizeDT off (some d) = some d) := by
  constructor
  · intro h
    refine ⟨?_, rfl, localtime_instant off d⟩
    simp [normalizeDT, normDT, h]
  · intro h
    simp [normalizeDT, normDT, h]

/-- Witness for C2's amended theorem at a concrete aware input. -/
theorem normalize_localizes_aware_witness :
    (⟨100, some 60⟩ : PyDateTime).isAware = true ∧
    (normalizeDT 0 (some ⟨100, some 60⟩) = some (localtime 0 ⟨100, some 60⟩) ∧
      (localtime 0 (⟨100, some 60⟩ : PyDateTime)).offset = some 0 ∧
      (localtime 0 (⟨100, some 60⟩ : PyDateTime)).instant =
        (⟨100, some 60⟩ : PyDateTime).instant) :=
  ⟨by decide, (normalize_localizes_aware 0 ⟨100, some 60⟩).1 (by decide)⟩

/-- C3. A candidate whose `start_date_time` and `end_date_time` are present
(as every `ExamCandidate` has instants for both), with
`access_type = 'specific_students'` and an empty `allowed_students`, is
rejected with the `NoParticipants` error, regardless of every other field,
the current time, and the student count. -/
theorem clean_specific_empty_rejects (cd : CleanedData)
    (nowWall localOffset : Int) (studentCount : Nat) (s e : PyDateTime)
    (hs : cd.start_date_time = some s) (he : cd.end_date_time = some e)
    (ha : cd.access_type = some "specific_students")
    (hemp : allowedIsEmpty cd.allowed_students = true) :
    clean cd nowWall localOffset studentCount =
      .error (vErr .NoParticipants msgNoParticipantsSpecific) := by
  simp [clean, normalizeDT, hs, he, ha, hemp]

/-- Witness for C3 at a concrete candidate. -/
theorem clean_specific_empty_rejects_witness :
    (⟨some "T", none, some ⟨60, some 0⟩, some ⟨120, some 0⟩, some 60, some 1,
        some 50, some "specific_students", some []⟩ : CleanedData).start_date_time =
      some ⟨60, some 0⟩ ∧
    clean ⟨some "T", none, some ⟨60, some 0⟩, some ⟨120, some 0⟩, some 60, some 1,
        some 50, some "specific_students", some []⟩ 0 0 7 =
      .error (vErr .NoParticipants msgNoParticipantsSpecific) :=
  ⟨rfl, clean_specific_empty_rejects _ 0 0 7 ⟨60, some 0⟩ ⟨120, some 0⟩
    rfl rfl rfl (by decide)⟩

/-- C7. Validation is a pure function of the candidate, the current time
and the student count: two runs on the same inputs give the same outcome,
hence the same acceptance or the same errors in the same order. -/
theorem clean_deterministic (cd : CleanedData) (nowWall localOffset : Int)
    (studentCount : Nat) (r₁ r₂ : Except CleanError CleanedData)
    (h₁ : r₁ = clean cd nowWall localOffset studentCount)
    (h₂ : r₂ = clean cd nowWall localOffset studentCount) :
    r₁ = r₂ ∧ errorsOf r₁ = errorsOf r₂ := by
  subst h₁ h₂
  exact ⟨rfl, rfl⟩

/-- Witness for C7 at a concrete candidate. -/
theorem clean_deterministic_witness :
    clean ⟨none, none, none, none, none, none, none, none, none⟩ 0 0 0 =
      clean ⟨none, none, none, none, none, none, none, none, none⟩ 0 0 0 ∧
    errorsOf (clean ⟨none, none, none, none, none, none, none, none, none⟩ 0 0 0) =
      errorsOf (clean ⟨none, none, none, none, none, none, none, none, none⟩ 0 0 0) :=
  clean_deterministic ⟨none, none, none, none, none, none, none, none, none⟩
    0 0 0 _ _ rfl rfl

/-- C1 (counterexample). A candidate violating both the participant rule
(SPECIFIC_STUDENTS with empty allowed_students) and the ordering rule
(start_at = end_at) yields only the single NoParticipants error: the
rejection list does not contain the InvalidRange error of the other failing
check, contradicting the claim that every failing check contributes. -/
theorem clean_not_accumulating :
    errorsOf (clean ⟨some "T", none, some ⟨100, none⟩, some ⟨100, none⟩,
        some 60, some 1, some 50, some "specific_students", some []⟩ 0 0 5) =
      [⟨.NoParticipants, msgNoParticipantsSpecific⟩] ∧
    (⟨.InvalidRange, msgInvalidRange⟩ : ValidationError) ∉
      errorsOf (clean ⟨some "T", none, some ⟨100, none⟩, some ⟨100, none⟩,
        some 60, some 1, some 50, some "specific_students", some []⟩ 0 0 5) := by
  refine ⟨by decide, by decide⟩

/-- C1 (amended). Every failing check raises immediately, so a rejection
carries exactly one ValidationError — the earliest failing check's in
evaluation order — and every check's failure, not only the type check's,
suppresses all later checks. Stated as: the error list never holds two
distinct errors, and, as an instance of suppression, a candidate failing
the SPECIFIC_STUDENTS participant check never surfaces an InvalidRange
error even when its time window is also invalid. -/
theorem clean_first_failure_only (cd : CleanedData) (nowWall localOffset : Int)
    (studentCount : Nat) :
    (∀ e₁ e₂, e₁ ∈ errorsOf (clean cd nowWall localOffset studentCount) →
      e₂ ∈ errorsOf (clean cd nowWall localOffset studentCount) → e₁ = e₂) ∧
    (cd.access_type = some "specific_students" →
      allowedIsEmpty cd.allowed_students = true →
      ∀ m, (⟨.InvalidRange, m⟩ : ValidationError) ∉
        errorsOf (clean cd nowWall localOffset studentCount)) := by
  constructor
  · exact errorsOf_subsingleton _
  · intro ha hemp m
    cases hs : cd.start_date_time with
    | none => simp [clean, normalizeDT, hs, errorsOf, vErr]
    | some s =>
      cases he : cd.end_date_time with
      | none => simp [clean, normalizeDT, hs, he, errorsOf, vErr]
      | some e =>
        rw [clean_specific_empty_rejects cd nowWall localOffset studentCount
          s e hs he ha hemp]
        simp [errorsOf, vErr, msgNoParticipantsSpecific, msgInvalidRange]

/-- Witness for C1's amended theorem at a concrete doubly-failing candidate. -/
theorem clean_first_failure_only_witness :
    (∀ e₁ e₂, e₁ ∈ errorsOf (clean ⟨none, none, some ⟨300, none⟩, some ⟨200, none⟩,
        none, none, none, some "specific_students", none⟩ 0 0 5) →
      e₂ ∈ errorsOf (clean ⟨none, none, some ⟨300, none⟩, some ⟨200, none⟩,
        none, none, none, some "specific_students", none⟩ 0 0 5) → e₁ = e₂) ∧
    ((⟨.InvalidRange, msgInvalidRange⟩ : ValidationError) ∉
      errorsOf (clean ⟨none, none, some ⟨300, none⟩, some ⟨200, none⟩,
        none, none, none, some "specific_students", none⟩ 0 0 5)) :=
  ⟨(clean_first_failure_only ⟨none, none, some ⟨300, none⟩, some ⟨200, none⟩,
      none, none, none, some "specific_students", none⟩ 0 0 5).1,
    (clean_first_failure_only ⟨none, none, some ⟨300, none⟩, some ⟨200, none⟩,
      none, none, none, some "specific_students", none⟩ 0 0 5).2 rfl
      (by decide) msgInvalidRange⟩

/-- C4 (counterexample). A candidate with start_at > end_at that also has
SPECIFIC_STUDENTS access and no selected students is rejected with the
NoParticipants error, which is not the InvalidRange error the claim
demands: the universally stated claim fails because an earlier failing
check masks the ordering check. -/
theorem clean_range_masked :
    clean ⟨some "T", none, some ⟨200, none⟩, some ⟨100, none⟩, some 60, some 1,
        some 50, some "specific_students", some []⟩ 0 0 3 =
      .error (vErr .NoParticipants msgNoParticipantsSpecific) ∧
    vErr .NoParticipants msgNoParticipantsSpecific ≠
      vErr .InvalidRange msgInvalidRange := by
  refine ⟨rfl, by decide⟩

/-- C4 (amended). For every candidate with both instants present and
comparable whose start_at >= end_at, provided no earlier check fails (the
access type is not ALL_STUDENTS with a zero student count, and not
SPECIFIC_STUDENTS with an empty selection), validation rejects with the
InvalidRange error carrying the message
'Start date and time must be before end date and time.'. -/
theorem clean_invalid_range (cd : CleanedData) (nowWall localOffset : Int)
    (studentCount : Nat) (s e : PyDateTime)
    (hs : cd.start_date_time = some s) (he : cd.end_date_time = some e)
    (hge : dtGe s e = some true)
    (hall : ¬(cd.access_type = some "all_students" ∧ studentCount = 0))
    (hspec : ¬(cd.access_type = some "specific_students" ∧
      allowedIsEmpty cd.allowed_students = true)) :
    clean cd nowWall localOffset studentCount =
      .error (vErr .InvalidRange msgInvalidRange) := by
  have hnorm : dtGe (normDT localOffset s) (normDT localOffset e) = some true := by
    rw [dtGe_normDT]; exact hge
  have hb1 : ¬((cd.access_type == some "all_students" && studentCount == 0) = true) := by
    simp only [Bool.and_eq_true, beq_iff_eq]
    exact hall
  have hb2 : ¬((cd.access_type == some "specific_students" &&
      allowedIsEmpty cd.allowed_students) = true) := by
    simp only [Bool.and_eq_true, beq_iff_eq]
    exact hspec
  have hb3 : ¬((!(cd.access_type == some "specific_students") &&
      cd.access_type == some "all_students" && studentCount == 0) = true) := by
    simp only [Bool.and_eq_true, beq_iff_eq, Bool.not_eq_true', beq_eq_false_iff_ne]
    rintro ⟨⟨-, h1⟩, h2⟩
    exact hall ⟨h1, h2⟩
  simp only [clean, normalizeDT, hs, he]
  rw [if_neg hb1, if_neg hb2, if_neg hb3]
  simp [pyTruthy, hnorm]

/-- Witness for C4's amended theorem at a concrete candidate with an
inverted time window and a nonempty specific-students selection. -/
theorem clean_invalid_range_witness :
    dtGe (⟨200, some 0⟩ : PyDateTime) ⟨100, some 0⟩ = some true ∧
    clean ⟨some "T", none, some ⟨200, some 0⟩, some ⟨100, some 0⟩, some 60, some 1,
        some 50, some "specific_students", some ["s1"]⟩ 0 0 3 =
      .error (vErr .InvalidRange msgInvalidRange) :=
  ⟨by decide, clean_invalid_range _ 0 0 3 ⟨200, some 0⟩ ⟨100, some 0⟩ rfl rfl
    (by decide) (by simp) (by simp [allowedIsEmpty])⟩

/-- C5. Scenario A: for any current time, a candidate whose start is one
hour from now and whose end is two hours from now (expressed in the local
zone), with SPECIFIC_STUDENTS access and one selected student and all other
fields well-formed, passes every check and validation returns the accepted
candidate. -/
theorem clean_scenario_a_accepted (nowWall localOffset : Int) (studentCount : Nat) :
    clean ⟨some "Exam", some "d", some ⟨nowWall + 60, some localOffset⟩,
      some ⟨nowWall + 120, some localOffset⟩, some 60, some 1, some 50,
      some "specific_students", some ["s1"]⟩ nowWall localOffset studentCount =
    .ok ⟨some "Exam", some "d", some ⟨nowWall + 60, some localOffset⟩,
      some ⟨nowWall + 120, some localOffset⟩, some 60, some 1, some 50,
      some "specific_students", some ["s1"]⟩ := by
  have harith : nowWall + 60 - localOffset + localOffset = nowWall + 60 := by ring
  have harith2 : nowWall + 120 - localOffset + localOffset = nowWall + 120 := by ring
  simp only [clean, normalizeDT, normDT, PyDateTime.isAware, localtime,
    PyDateTime.instant, Option.getD, Option.isSome, allowedIsEmpty, pyTruthy,
    dtGe, dtLt, PyDateTime.year, minutesPerYear, harith, harith2]
  norm_num
  rw [if_neg (by simp), if_neg (by omega), if_neg (by omega)]

/-- Witness for C5 at the concrete current time zero in zone UTC. -/
theorem clean_scenario_a_accepted_witness :
    clean ⟨some "Exam", some "d", some ⟨0 + 60, some 0⟩, some ⟨0 + 120, some 0⟩,
      some 60, some 1, some 50, some "specific_students", some ["s1"]⟩ 0 0 9 =
    .ok ⟨some "Exam", some "d", some ⟨0 + 60, some 0⟩, some ⟨0 + 120, some 0⟩,
      some 60, some 1, some 50, some "specific_students", some ["s1"]⟩ :=
  clean_scenario_a_accepted 0 0 9

/-- C6 (counterexample). A candidate whose start_date_time is missing is
rejected with the InvalidType error 'Start date and time is not a valid
date/time.' raised by the type check, which is not the Required error the
claim demands. -/
theorem clean_missing_start_not_required :
    clean ⟨some "T", none, none, some ⟨100, some 0⟩, some 60, some 1, some 50,
        none, none⟩ 0 0 1 =
      .error (vErr .InvalidType msgInvalidTypeStart) ∧
    vErr .InvalidType msgInvalidTypeStart ≠ vErr .Required msgRequired := by
  refine ⟨rfl, by decide⟩

/-- C6 (amended). A candidate in which start_at or end_at is missing (null)
after normalization is rejected by the type check with an InvalidType
error; the Required branch ('Both start and end date/time are required.')
is unreachable, because the type check already raised for any missing
instant and every datetime is truthy. -/
theorem clean_missing_dates_invalid_type (cd : CleanedData)
    (nowWall localOffset : Int) (studentCount : Nat) :
    ((cd.start_date_time = none ∨ cd.end_date_time = none) →
      ∃ m, clean cd nowWall localOffset studentCount = .error (vErr .InvalidType m)) ∧
    (∀ m, clean cd nowWall localOffset studentCount ≠ .error (vErr .Required m)) := by
  constructor
  · intro hmiss
    cases hs : cd.start_date_time with
    | none => exact ⟨msgInvalidTypeStart, by simp [clean, normalizeDT, hs]⟩
    | some s =>
      cases he : cd.end_date_time with
      | none => exact ⟨msgInvalidTypeEnd, by simp [clean, normalizeDT, hs, he]⟩
      | some e =>
        rw [hs, he] at hmiss
        rcases hmiss with h | h <;> exact absurd h (by simp)
  · intro m h
    unfold clean at h
    repeat' split at h
    all_goals try simp_all [vErr, pyTruthy]
    all_goals (repeat' split at h)
    all_goals simp_all

/-- Witness for C6's amended theorem at a candidate missing its end
instant. -/
theorem clean_missing_dates_invalid_type_witness :
    ((⟨none, none, some ⟨50, some 0⟩, none, none, none, none, none, none⟩ :
        CleanedData).start_date_time = none ∨
      (⟨none, none, some ⟨50, some 0⟩, none, none, none, none, none, none⟩ :
        CleanedData).end_date_time = none) ∧
    (∃ m, clean ⟨none, none, some ⟨50, some 0⟩, none, none, none, none, none,
        none⟩ 0 0 1 = .error (vErr .InvalidType m)) ∧
    clean ⟨none, none, some ⟨50, some 0⟩, none, none, none, none, none,
        none⟩ 0 0 1 ≠ .error (vErr .Required msgRequired) :=
  ⟨Or.inr rfl,
    (clean_missing_dates_invalid_type _ 0 0 1).1 (Or.inr rfl),
    (clean_missing_dates_invalid_type _ 0 0 1).2 msgRequired⟩

/-- C8. On acceptance, clean returns the cleaned_data mapping with every
field unchanged: the local-timezone conversion of start_date_time and
end_date_time only affects the local variables the checks read, so the
accepted value is exactly the one produced by super().clean(). -/
theorem clean_accept_returns_input (cd : CleanedData) (nowWall localOffset : Int)
    (studentCount : Nat) (cd' : CleanedData)
    (h : clean cd nowWall localOffset studentCount = .ok cd') : cd' = cd := by
  unfold clean at h
  repeat' split at h
  all_goals try simp_all
  all_goals (repeat' split at h)
  all_goals simp_all

/-- Witness for C8: a concrete accepted candidate with a non-local-zone
aware start (offset +30) comes back with that field untouched. -/
theorem clean_accept_returns_input_witness :
    clean ⟨some "T", none, some ⟨90, some 30⟩, some ⟨120, some 0⟩, some 60,
        some 1, some 50, some "all_students", none⟩ 0 0 4 =
      .ok ⟨some "T", none, some ⟨90, some 30⟩, some ⟨120, some 0⟩, some 60,
        some 1, some 50, some "all_students", none⟩ ∧
    (⟨some "T", none, some ⟨90, some 30⟩, some ⟨120, some 0⟩, some 60,
        some 1, some 50, some "all_students", none⟩ : CleanedData) =
      ⟨some "T", none, some ⟨90, some 30⟩, some ⟨120, some 0⟩, some 60,
        some 1, some 50, some "all_students", none⟩ :=
  ⟨rfl, clean_accept_returns_input _ 0 0 4 _ rfl⟩

/-- C9. With a student count that is stable within one validation call, the
second ALL_STUDENTS zero-registry branch is unreachable: no run of clean
ever produces the error 'Cannot create exam because there are no students
in the system. Please register students first.', since the first
ALL_STUDENTS check already raises whenever the count is zero. -/
theorem clean_second_all_students_unreachable (cd : CleanedData)
    (nowWall localOffset : Int) (studentCount : Nat) :
    clean cd nowWall localOffset studentCount ≠
      .error (vErr .NoParticipants msgNoStudentsAll2) := by
  intro h
  unfold clean at h
  repeat' split at h
  all_goals try simp_all [vErr]
  all_goals try (exact absurd h (by decide))
  all_goals (repeat' split at h)
  all_goals simp_all

/-- Witness for C9 at a concrete ALL_STUDENTS candidate with zero
students. -/
theorem clean_second_all_students_unreachable_witness :
    clean ⟨some "T", none, some ⟨60, some 0⟩, some ⟨120, some 0⟩, some 60,
        some 1, some 50, some "all_students", none⟩ 0 0 0 ≠
      .error (vErr .NoParticipants msgNoStudentsAll2) :=
  clean_second_all_students_unreachable _ 0 0 0

/-- C10. When access_type is neither 'all_students' nor 'specific_students'
(for example missing after field-level validation), both participant checks
are skipped, and a candidate with no participants at all is accepted
provided the type check, the ordering check, the two year-bound checks and
the past-date check pass on the normalized instants. -/
theorem clean_other_access_accepted (cd : CleanedData)
    (nowWall localOffset : Int) (studentCount : Nat) (s e : PyDateTime)
    (hs : cd.start_date_time = some s) (he : cd.end_date_time = some e)
    (ha1 : cd.access_type ≠ some "all_students")
    (ha2 : cd.access_type ≠ some "specific_students")
    (hge : dtGe (normDT localOffset s) (normDT localOffset e) = some false)
    (hys : ¬((normDT localOffset s).year <
        (⟨nowWall, some localOffset⟩ : PyDateTime).year ∨
      (normDT localOffset s).year >
        (⟨nowWall, some localOffset⟩ : PyDateTime).year + 10))
    (hye : ¬((normDT localOffset e).year <
        (⟨nowWall, some localOffset⟩ : PyDateTime).year ∨
      (normDT localOffset e).year >
        (⟨nowWall, some localOffset⟩ : PyDateTime).year + 10))
    (hpast : dtLt (normDT localOffset s) ⟨nowWall, some localOffset⟩ = some false) :
    clean cd nowWall localOffset studentCount = .ok cd := by
  have hb1 : ¬((cd.access_type == some "all_students" && studentCount == 0) = true) := by
    simp only [Bool.and_eq_true, beq_iff_eq]
    rintro ⟨h, -⟩
    exact ha1 h
  have hb2 : ¬((cd.access_type == some "specific_students" &&
      allowedIsEmpty cd.allowed_students) = true) := by
    simp only [Bool.and_eq_true, beq_iff_eq]
    rintro ⟨h, -⟩
    exact ha2 h
  have hb3 : ¬((!(cd.access_type == some "specific_students") &&
      cd.access_type == some "all_students" && studentCount == 0) = true) := by
    simp only [Bool.and_eq_true, beq_iff_eq, Bool.not_eq_true', beq_eq_false_iff_ne]
    rintro ⟨⟨-, h⟩, -⟩
    exact ha1 h
  have hbys : (decide ((normDT localOffset s).year <
      (⟨nowWall, some localOffset⟩ : PyDateTime).year) ||
      decide ((normDT localOffset s).year >
      (⟨nowWall, some localOffset⟩ : PyDateTime).year + 10)) = false := by
    simp only [Bool.or_eq_false_iff, decide_eq_false_iff_not]
    exact ⟨fun h => hys (Or.inl h), fun h => hys (Or.inr h)⟩
  have hbye : (decide ((normDT localOffset e).year <
      (⟨nowWall, some localOffset⟩ : PyDateTime).year) ||
      decide ((normDT localOffset e).year >
      (⟨nowWall, some localOffset⟩ : PyDateTime).year + 10)) = false := by
    simp only [Bool.or_eq_false_iff, decide_eq_false_iff_not]
    exact ⟨fun h => hye (Or.inl h), fun h => hye (Or.inr h)⟩
  simp only [clean, normalizeDT, hs, he]
  rw [if_neg hb1, if_neg hb2, if_neg hb3]
  simp [pyTruthy, hge, hbys, hbye, hpast]

/-- Witness for C10: a candidate with a missing access_type, no selected
students and a zero student count is accepted. -/
theorem clean_other_access_accepted_witness :
    (⟨none, none, some ⟨60, some 0⟩, some ⟨120, some 0⟩, none, none, none,
        none, none⟩ : CleanedData).access_type ≠ some "all_students" ∧
    clean ⟨none, none, some ⟨60, some 0⟩, some ⟨120, some 0⟩, none, none, none,
        none, none⟩ 0 0 0 =
      .ok ⟨none, none, some ⟨60, some 0⟩, some ⟨120, some 0⟩, none, none, none,
        none, none⟩ :=
  ⟨by decide,
    clean_other_access_accepted _ 0 0 0 ⟨60, some 0⟩ ⟨120, some 0⟩ rfl rfl
      (by decide) (by decide) (by decide) (by decide) (by decide) (by decide)⟩
